import Mathlib

/-
Verification of a streaming serverless custom runtime (runtime.py together with
the demo handler lambda_function.py) against its design specification.  The
runtime's network activity is modelled as a trace of connection events over the
three control-plane endpoints; the handler is modelled as a lazy generator that
yields a list of chunks and then either finishes normally or raises.
-/

namespace LambdaRuntime

/-- Byte strings are lists of naturals (each below 256 by construction). -/
abbrev Bytes := List Nat

/-- UTF-8 encoding of one code point, as CPython's str.encode performs it. -/
def utf8EncodeChar (c : Nat) : List Nat :=
  if c < 128 then [c]
  else if c < 2048 then [192 + c / 64, 128 + c % 64]
  else if c < 65536 then [224 + c / 4096, 128 + c / 64 % 64, 128 + c % 64]
  else [240 + c / 262144, 128 + c / 4096 % 64, 128 + c / 64 % 64, 128 + c % 64]

/-- UTF-8 encoding of a string. -/
def utf8Encode (s : String) : Bytes :=
  (s.data.map fun c => utf8EncodeChar c.toNat).flatten

/-- One hexadecimal digit, uppercase, as produced by format spec X. -/
def hexDigit (n : Nat) : Char :=
  if n < 10 then Char.ofNat (48 + n) else Char.ofNat (55 + n)

/-- Worker for hexChars, fuel-indexed so that the recursion is structural and
computes by rfl; fuel n + 1 always suffices because the argument shrinks by a
factor of 16 at each step. -/
def hexCharsAux : Nat → Nat → List Char
  | 0, _ => []
  | fuel + 1, n =>
    if n < 16 then [hexDigit n]
    else hexCharsAux fuel (n / 16) ++ [hexDigit (n % 16)]

/-- Digits of n in base 16, most significant first, with no leading zeros;
zero renders as the single digit 0, matching the f-string "X" format used for
the chunk size line. -/
def hexChars (n : Nat) : List Char := hexCharsAux (n + 1) n

/-- The uppercase-hexadecimal rendering of a natural number. -/
def hexStr (n : Nat) : String := String.mk (hexChars n)

/-- Numeric value of one hexadecimal digit character. -/
def hexDigitVal (c : Char) : Nat :=
  if c.toNat ≤ 57 then c.toNat - 48 else c.toNat - 55

/-- Numeric value of a most-significant-first hexadecimal digit string. -/
def hexValue (cs : List Char) : Nat :=
  cs.foldl (fun a c => 16 * a + hexDigitVal c) 0

/-- One decimal digit, or none. -/
def decDigit (c : Char) : Option Nat :=
  if 48 ≤ c.toNat ∧ c.toNat ≤ 57 then some (c.toNat - 48) else none

/-- Value of a non-empty run of decimal digits; none when empty or when a
non-digit occurs. -/
def decDigitsVal (cs : List Char) : Option Nat :=
  if cs.isEmpty then none
  else
    cs.foldl
      (fun a c =>
        match a, decDigit c with
        | some n, some d => some (10 * n + d)
        | _, _ => none)
      (some 0)

/-- ASCII whitespace as recognised by str.split() and int() stripping. -/
def pyIsSpace (c : Char) : Bool :=
  c = ' ' || c = '\t' || c = '\n' || c = '\r' || c.toNat = 11 || c.toNat = 12

/-- Strip leading and trailing whitespace from a character list. -/
def pyStripChars (cs : List Char) : List Char :=
  ((cs.dropWhile pyIsSpace).reverse.dropWhile pyIsSpace).reverse

/-- CPython int(s) on a string: surrounding whitespace stripped, an optional
sign, then decimal digits; any other shape raises ValueError, modelled as none.
(The underscore digit grouping CPython also accepts is not modelled; no claim
touches it.) -/
def pyIntOfString (s : String) : Option Int :=
  match pyStripChars s.data with
  | [] => none
  | c :: cs =>
    if c = '+' then (decDigitsVal cs).map Int.ofNat
    else if c = '-' then (decDigitsVal cs).map fun n => -(n : Int)
    else (decDigitsVal (c :: cs)).map Int.ofNat

/-- CPython int(x) where x came from response.getheader, which is None when the
header is absent: int(None) raises TypeError, modelled as none. -/
def pyInt : Option String → Option Int
  | none => none
  | some s => pyIntOfString s

/-- CPython str.split() worker: acc holds the characters of the word in
progress, reversed. -/
def pySplitAux : List Char → List Char → List String
  | [], acc => if acc.isEmpty then [] else [String.mk acc.reverse]
  | c :: cs, acc =>
    if pyIsSpace c then
      if acc.isEmpty then pySplitAux cs []
      else String.mk acc.reverse :: pySplitAux cs []
    else pySplitAux cs (c :: acc)

/-- CPython str.split() with no separator: splits on whitespace runs and
discards empty pieces. -/
def pySplit (s : String) : List String := pySplitAux s.data []

/-- JSON values, as returned by json.loads. -/
inductive Json
  | null
  | bool (b : Bool)
  | num (n : Int)
  | str (s : String)
  | arr (xs : List Json)
  | obj (kvs : List (String × Json))

/-- CPython dict.get(key, default) over a JSON object's entries. -/
def dictGet (kvs : List (String × Json)) (k : String) (d : Json) : Json :=
  match kvs.find? fun kv => kv.1 == k with
  | some kv => kv.2
  | none => d

/-- One lowercase hexadecimal digit. -/
def lowHexDigit (n : Nat) : Char :=
  if n < 10 then Char.ofNat (48 + n) else Char.ofNat (87 + n)

/-- Four-digit lowercase hexadecimal, as in json.dumps ensure_ascii escapes. -/
def u4 (n : Nat) : String :=
  String.mk [lowHexDigit (n / 4096 % 16), lowHexDigit (n / 256 % 16),
    lowHexDigit (n / 16 % 16), lowHexDigit (n % 16)]

/-- Escaping of one character as json.dumps (default ensure_ascii=True) does:
backslash, quote and the named control escapes, \u00xx for other controls,
printable ASCII verbatim, \uxxxx (with surrogate pairs beyond the BMP) for
everything else. -/
def jsonEscapeChar (c : Char) : String :=
  if c = '\\' then "\\\\"
  else if c = '"' then "\\\""
  else if c.toNat = 8 then "\\b"
  else if c.toNat = 9 then "\\t"
  else if c.toNat = 10 then "\\n"
  else if c.toNat = 12 then "\\f"
  else if c.toNat = 13 then "\\r"
  else if c.toNat < 32 then "\\u" ++ u4 c.toNat
  else if c.toNat < 127 then String.mk [c]
  else if c.toNat < 65536 then "\\u" ++ u4 c.toNat
  else "\\u" ++ u4 (55296 + (c.toNat - 65536) / 1024) ++ "\\u" ++ u4 (56320 + (c.toNat - 65536) % 1024)

/-- json.dumps of a string value. -/
def jsonDumpsStr (s : String) : String :=
  "\"" ++ String.join (s.data.map jsonEscapeChar) ++ "\""

/-- The process environment, os.environ.get. -/
structure PyEnv where
  get : String → Option String

/-- os.environ.get with a default. -/
def envGet (env : PyEnv) (k d : String) : String := (env.get k).getD d

/-- The Lambda execution context object (class LambdaContext). -/
structure LambdaContext where
  aws_request_id : Option String
  deadline_ms : Int
  invoked_function_arn : Option String
  trace_id : Option String
  function_name : String
  function_version : String
  memory_limit_in_mb : String
  log_group_name : String
  log_stream_name : String

/-- LambdaContext.__init__: int(deadline_ms) raises (none here) on a missing
header (None) or a malformed string; otherwise the context is built, the
environment facts defaulted exactly as in the source. -/
def LambdaContext.init (env : PyEnv) (request_id : Option String)
    (deadline_ms : Option String) (arn : Option String) (traceId : Option String) :
    Option LambdaContext :=
  match pyInt deadline_ms with
  | none => none
  | some d =>
    some
      { aws_request_id := request_id
        deadline_ms := d
        invoked_function_arn := arn
        trace_id := traceId
        function_name := envGet env "AWS_LAMBDA_FUNCTION_NAME" "unknown"
        function_version := envGet env "AWS_LAMBDA_FUNCTION_VERSION" "$LATEST"
        memory_limit_in_mb := envGet env "AWS_LAMBDA_FUNCTION_MEMORY_SIZE" "128"
        log_group_name := envGet env "AWS_LAMBDA_LOG_GROUP_NAME" ""
        log_stream_name := envGet env "AWS_LAMBDA_LOG_STREAM_NAME" "" }

/-- get_remaining_time_in_millis: the deadline minus the current wall clock in
milliseconds, clamped at zero.  The clock is a parameter because each call
reads time.time() afresh; nothing is stored at construction. -/
def LambdaContext.get_remaining_time_in_millis (ctx : LambdaContext) (now_ms : Int) : Int :=
  max 0 (ctx.deadline_ms - now_ms)

/-- The three control-plane endpoints. -/
inductive Endpoint
  | next
  | response
  | error
deriving DecidableEq

/-- One observable network action.  connOpen is the connection attempt
(http.client connects lazily at the first write); sendHeaders covers the
request line plus headers (conn.request or putrequest/putheader/endheaders);
send is one conn.send of body bytes; getResponse covers getresponse together
with response.read. -/
inductive Event
  | connOpen (ep : Endpoint)
  | sendHeaders (ep : Endpoint) (headers : List (String × String))
  | send (ep : Endpoint) (data : Bytes)
  | getResponse (ep : Endpoint) (status : Nat)
  | connClose (ep : Endpoint)
deriving DecidableEq

/-- Is this event an open of the given endpoint's connection? -/
def isOpen (ep : Endpoint) : Event → Bool
  | .connOpen e => e == ep
  | _ => false

/-- Is this event a close of the given endpoint's connection? -/
def isClose (ep : Endpoint) : Event → Bool
  | .connClose e => e == ep
  | _ => false

/-- How many times a trace opens a connection to the endpoint. -/
def countOpens (t : List Event) (ep : Endpoint) : Nat := (t.filter (isOpen ep)).length

/-- How many times a trace closes a connection to the endpoint. -/
def countCloses (t : List Event) (ep : Endpoint) : Nat := (t.filter (isClose ep)).length

/-- The body byte strings a trace sends to the endpoint, in order. -/
def sendsTo (t : List Event) (ep : Endpoint) : List Bytes :=
  t.filterMap fun e =>
    match e with
    | .send e2 b => if e2 = ep then some b else none
    | _ => none

/-- A value yielded by the handler generator: str chunks are utf-8 encoded by
stream_response before framing, bytes chunks are sent as is. -/
inductive Chunk
  | str (s : String)
  | bytes (b : Bytes)
deriving DecidableEq

/-- The exact byte representation stream_response sends for a chunk. -/
def Chunk.toBytes : Chunk → Bytes
  | .str s => utf8Encode s
  | .bytes b => b

/-- The handler's lazily produced output: the chunks it yields in order, and
whether it raises afterwards (fails with chunks = [] is a failure before the
first yield).  Calling a generator function runs none of its body, so every
handler failure surfaces only while stream_response iterates the generator. -/
structure Generator where
  chunks : List Chunk
  fails : Bool

/-- The streaming request headers sent by putheader before the body. -/
def streamHeaders : List (String × String) :=
  [("Lambda-Runtime-Function-Response-Mode", "streaming"), ("Transfer-Encoding", "chunked")]

/-- The terminating chunk frame bytes, "0" CR LF CR LF. -/
def termBytes : Bytes := [48, 13, 10, 13, 10]

/-- The three conn.send calls for one chunk: the size line (the f-string
"size:X" followed by CR LF, encoded), the raw chunk bytes, and CR LF. -/
def chunkFrameSends (c : Chunk) : List Event :=
  [Event.send .response (utf8Encode (hexStr c.toBytes.length ++ "\r\n")),
   Event.send .response c.toBytes,
   Event.send .response [13, 10]]

/-- All bytes one chunk contributes to the wire. -/
def chunkFrameBytes (c : Chunk) : Bytes :=
  utf8Encode (hexStr c.toBytes.length ++ "\r\n") ++ c.toBytes ++ [13, 10]

/-- Behaviour of conn.getresponse()/read() on the response connection: a
status, or an exception (for example a reset while reading the
acknowledgment). -/
inductive AckBehavior
  | status (s : Nat)
  | raises
deriving DecidableEq

/-- stream_response: opens the connection and sends the streaming headers, then
sends one frame per yielded chunk; if the generator raises, the except clause
logs and re-raises (second component true), so neither the terminator nor
conn.close runs; otherwise it sends the terminator and reads the
acknowledgment (a status other than 202 is only logged) and closes.  If
getresponse raises after the terminator, the except clause re-raises and again
no close runs. -/
def stream_response (gen : Generator) (ack : AckBehavior) : List Event × Bool :=
  let pre : List Event := [.connOpen .response, .sendHeaders .response streamHeaders]
  let frames := (gen.chunks.map chunkFrameSends).flatten
  if gen.fails then (pre ++ frames, true)
  else
    match ack with
    | .raises => (pre ++ frames ++ [.send .response termBytes], true)
    | .status s =>
      (pre ++ frames ++ [.send .response termBytes, .getResponse .response s, .connClose .response],
       false)

/-- The error-report request headers. -/
def errHeaders : List (String × String) := [("Content-Type", "application/json")]

/-- send_error: posts the JSON error body to the error endpoint; any exception
is swallowed, never re-raised.  errT is the transport outcome: some s means
the exchange completed with status s and the connection was closed; none means
the transport raised before the body went out, so no close happened either. -/
def send_error (body : Bytes) (errT : Option Nat) : List Event :=
  match errT with
  | some s =>
    [.connOpen .error, .sendHeaders .error errHeaders, .send .error body,
     .getResponse .error s, .connClose .error]
  | none => [.connOpen .error, .sendHeaders .error errHeaders]

/-- What the control plane returns from one GET of the next-invocation
endpoint: the status, the four metadata headers (None when absent), and the
body decoded as utf-8 text. -/
structure PollResponse where
  status : Nat
  requestId : Option String
  deadlineMs : Option String
  arn : Option String
  traceId : Option String
  body : String

/-- The triple get_next_invocation returns on success. -/
structure Invocation where
  request_id : Option String
  event : Json
  context : LambdaContext

/-- get_next_invocation: a non-200 status returns None without closing; the
body is passed to json.loads only when non-empty (an empty body yields the
empty dict); a json.loads failure or a LambdaContext failure lands in the
except clause and returns None, again without closing; only the success path
reaches conn.close.  loads abstracts json.loads; setting the ambient trace-id
environment variable is not observable here. -/
def get_next_invocation (env : PyEnv) (loads : String → Option Json)
    (r : PollResponse) : List Event × Option Invocation :=
  let pre : List Event := [.connOpen .next, .sendHeaders .next [], .getResponse .next r.status]
  if r.status ≠ 200 then (pre, none)
  else
    match (if r.body = "" then some (Json.obj []) else loads r.body) with
    | none => (pre, none)
    | some ev =>
      match LambdaContext.init env r.requestId r.deadlineMs r.arn r.traceId with
      | none => (pre, none)
      | some ctx => (pre ++ [.connClose .next], some ⟨r.requestId, ev, ctx⟩)

/-- What one iteration of the main loop does next: continue polling, or leave
the loop (only an external KeyboardInterrupt leaves it). -/
inductive LoopOutcome
  | cont
  | exit
deriving DecidableEq

/-- Python truthiness of the request id: None and the empty string are falsy. -/
def pyTruthyStr : Option String → Bool
  | none => false
  | some s => s ≠ ""

/-- The inner try of the main loop: stream the generator; on any exception from
the handler or the transport, report the error once (best effort) and fall
through; the loop then continues either way. -/
def invokeOnce (gen : Generator) (ack : AckBehavior) (errBody : Bytes)
    (errT : Option Nat) : List Event × LoopOutcome :=
  let p := stream_response gen ack
  if p.2 then (p.1 ++ send_error errBody errT, .cont) else (p.1, .cont)

/-- One iteration of the main while-True loop after startup: poll; without a
truthy request id, sleep and continue; otherwise call the handler (a generator
function, so the call itself runs none of the handler body) and stream. -/
def mainIteration (env : PyEnv) (loads : String → Option Json) (r : PollResponse)
    (handler : Json → Generator) (ack : AckBehavior) (errBody : Bytes)
    (errT : Option Nat) : List Event × LoopOutcome :=
  let p := get_next_invocation env loads r
  match p.2 with
  | none => (p.1, .cont)
  | some inv =>
    if pyTruthyStr inv.request_id then
      let q := invokeOnce (handler inv.event) ack errBody errT
      (p.1 ++ q.1, q.2)
    else (p.1, .cont)

/-- json.dumps of the per-word dict, insertion order word, index, total, with
the default separators. -/
def jsonDumpsChunk (w : String) (i total : Nat) : String :=
  "\x7b\"word\": " ++ jsonDumpsStr w ++ ", \"index\": " ++ toString i ++
    ", \"total\": " ++ toString total ++ "\x7d"

/-- lambda_handler (lambda_function.py), a generator function: event.get raises
before the first yield when the event is not a dict; .split() raises when the
sentence value is not a string; otherwise it yields one utf-8 encoded JSON
line per word of the sentence, newline appended before encoding.  print and
time.sleep have no observable effect in this model. -/
def lambda_handler (event : Json) : Generator :=
  match event with
  | .obj kvs =>
    match dictGet kvs "sentence" (.str "Hello world") with
    | .str sentence =>
      let words := pySplit sentence
      { chunks := words.enum.map fun p =>
          Chunk.bytes (utf8Encode (jsonDumpsChunk p.2 p.1 words.length ++ "\n"))
        fails := false }
    | _ => { chunks := [], fails := true }
  | _ => { chunks := [], fails := true }

/-- An environment with nothing set, for the concrete scenarios below. -/
def env0 : PyEnv := ⟨fun _ => none⟩

/-- A stand-in for json.loads that covers the concrete bodies used below. -/
def loads0 : String → Option Json :=
  fun s => if s = "[]" then some (Json.arr []) else none

/-- A concrete execution context. -/
def ctx0 : LambdaContext :=
  { aws_request_id := some "req-1"
    deadline_ms := 1000
    invoked_function_arn := some "arn:demo"
    trace_id := none
    function_name := "unknown"
    function_version := "$LATEST"
    memory_limit_in_mb := "128"
    log_group_name := ""
    log_stream_name := "" }

/-- The concrete scenario input event of the spec. -/
def event9 : Json := Json.obj [("sentence", Json.str "Hello this is a test")]

/-- A successful poll response carrying an empty body. -/
def pollEmptyBody : PollResponse :=
  { status := 200, requestId := some "req-1", deadlineMs := some "1760000000000",
    arn := some "arn:demo", traceId := some "trace-1", body := "" }

/-- A poll response whose status is not 200. -/
def poll500 : PollResponse :=
  { status := 500, requestId := none, deadlineMs := none, arn := none,
    traceId := none, body := "" }

/-- A successful poll response whose deadline header is absent. -/
def pollNoDeadline : PollResponse :=
  { status := 200, requestId := some "req-1", deadlineMs := none,
    arn := some "arn:demo", traceId := some "trace-1", body := "" }

/-- A poll response delivering the JSON array event parsed from "[]". -/
def pollArrayBody : PollResponse :=
  { status := 200, requestId := some "req-1", deadlineMs := some "1760000000000",
    arn := some "arn:demo", traceId := some "trace-1", body := "[]" }

/-- A two-chunk generator that then raises. -/
def genFail2 : Generator := { chunks := [Chunk.str "ab", Chunk.str "c"], fails := true }

/-- A one-chunk generator that completes normally. -/
def genOk1 : Generator := { chunks := [Chunk.str "hi"], fails := false }

/-- A generator that raises before its first chunk. -/
def genFail0 : Generator := { chunks := [], fails := true }

/-- The uppercase hexadecimal digit characters. -/
def hexDigitSet : List Char :=
  ['0', '1', '2', '3', '4', '5', '6', '7', '8', '9', 'A', 'B', 'C', 'D', 'E', 'F']

/-- The fuel of hexCharsAux is irrelevant as long as it exceeds the argument. -/
theorem hexCharsAux_congr :
    ∀ f1 f2 n, n < f1 → n < f2 → hexCharsAux f1 n = hexCharsAux f2 n := by
  intro f1
  induction f1 with
  | zero => intro f2 n h1 _; omega
  | succ f ih =>
    intro f2 n h1 h2
    cases f2 with
    | zero => omega
    | succ g =>
      simp only [hexCharsAux]
      split
      · rfl
      · next hge => rw [ih g (n / 16) (by omega) (by omega)]

/-- The defining recurrence of hexChars. -/
theorem hexChars_eq (n : Nat) :
    hexChars n = if n < 16 then [hexDigit n] else hexChars (n / 16) ++ [hexDigit (n % 16)] := by
  show hexCharsAux (n + 1) n = _
  simp only [hexCharsAux]
  split
  · rfl
  · next hge =>
    rw [hexCharsAux_congr n (n / 16 + 1) (n / 16) (by omega) (by omega)]
    rfl

/-- hexChars never produces the empty list. -/
theorem hexChars_ne_nil (n : Nat) : hexChars n ≠ [] := by
  rw [hexChars_eq]
  split
  · simp
  · simp

/-- hexDigitVal inverts hexDigit below 16. -/
theorem hexDigitVal_hexDigit (m : Nat) (hm : m < 16) : hexDigitVal (hexDigit m) = m := by
  interval_cases m <;> decide

/-- Each hex digit below 16 is one of the sixteen uppercase characters. -/
theorem hexDigit_mem (m : Nat) (hm : m < 16) : hexDigit m ∈ hexDigitSet := by
  interval_cases m <;> decide

/-- hexValue over a snoc. -/
theorem hexValue_snoc (cs : List Char) (c : Char) :
    hexValue (cs ++ [c]) = 16 * hexValue cs + hexDigitVal c := by
  simp [hexValue, List.foldl_append]

/-- hexChars is a correct base-16 rendering: its value is the number itself. -/
theorem hexValue_hexChars (n : Nat) : hexValue (hexChars n) = n := by
  induction n using Nat.strong_induction_on with
  | _ n ih =>
    rw [hexChars_eq]
    split
    · next h => simp [hexValue, hexDigitVal_hexDigit n h]
    · next h =>
      rw [hexValue_snoc, ih (n / 16) (by omega),
        hexDigitVal_hexDigit (n % 16) (by omega)]
      omega

/-- Every character hexChars produces is an uppercase hexadecimal digit. -/
theorem hexChars_mem (n : Nat) : ∀ c ∈ hexChars n, c ∈ hexDigitSet := by
  induction n using Nat.strong_induction_on with
  | _ n ih =>
    rw [hexChars_eq]
    split
    · next h =>
      intro c hc
      rw [List.mem_singleton] at hc
      subst hc
      exact hexDigit_mem n h
    · next h =>
      intro c hc
      rw [List.mem_append] at hc
      rcases hc with hc | hc
      · exact ih (n / 16) (by omega) c hc
      · rw [List.mem_singleton] at hc
        subst hc
        exact hexDigit_mem (n % 16) (by omega)

/-- For positive n the leading digit of hexChars is not the zero digit. -/
theorem hexChars_head_ne_zero (n : Nat) (hn : 0 < n) : (hexChars n).head? ≠ some '0' := by
  induction n using Nat.strong_induction_on with
  | _ n ih =>
    rw [hexChars_eq]
    split
    · next h =>
      interval_cases n <;> decide
    · next h =>
      have h16 : 0 < n / 16 := by omega
      have hhd := ih (n / 16) (by omega) h16
      obtain ⟨a, as, hEq⟩ := List.exists_cons_of_ne_nil (hexChars_ne_nil (n / 16))
      rw [hEq]
      rw [hEq] at hhd
      simpa using hhd

/-- utf8Encode distributes over string append. -/
theorem utf8Encode_append (a b : String) :
    utf8Encode (a ++ b) = utf8Encode a ++ utf8Encode b := by
  show utf8Encode ⟨a.data ++ b.data⟩ = _
  simp [utf8Encode]

/-- The encoding of CR LF. -/
theorem utf8Encode_crlf : utf8Encode "\r\n" = [13, 10] := rfl

/-- On ASCII characters utf8Encode is one byte per character. -/
theorem utf8Encode_ascii :
    ∀ cs : List Char, (∀ c ∈ cs, c.toNat < 128) →
      utf8Encode (String.mk cs) = cs.map Char.toNat := by
  intro cs
  induction cs with
  | nil => intro _; rfl
  | cons c cs ih =>
    intro h
    have hc : c.toNat < 128 := h c (by simp)
    have h2 : (cs.map fun x => utf8EncodeChar x.toNat).flatten = cs.map Char.toNat :=
      ih fun x hx => h x (by simp [hx])
    show utf8EncodeChar c.toNat ++ (cs.map fun x => utf8EncodeChar x.toNat).flatten = _
    rw [h2]
    simp [utf8EncodeChar, hc]

/-- Every uppercase hexadecimal digit character is ASCII. -/
theorem hexDigitSet_ascii : ∀ c ∈ hexDigitSet, c.toNat < 128 := by decide

/-- The size line of a chunk frame is never byte-identical to the terminator
frame: its leading byte is a nonzero hexadecimal digit for a positive size, and
for size zero it is three bytes long. -/
theorem sizeLine_ne_termBytes (n : Nat) : utf8Encode (hexStr n ++ "\r\n") ≠ termBytes := by
  rcases Nat.eq_zero_or_pos n with h0 | hpos
  · subst h0; decide
  · intro hEq
    obtain ⟨a, as, hc⟩ := List.exists_cons_of_ne_nil (hexChars_ne_nil n)
    have hmem : a ∈ hexChars n := by rw [hc]; exact List.mem_cons_self _ _
    have hset := hexChars_mem n a hmem
    have hhd := hexChars_head_ne_zero n hpos
    rw [hc] at hhd
    have ha : a ≠ '0' := by simpa using hhd
    have henc : utf8Encode (hexStr n) = (hexChars n).map Char.toNat :=
      utf8Encode_ascii (hexChars n) fun c hcm => hexDigitSet_ascii c (hexChars_mem n c hcm)
    rw [utf8Encode_append, henc, hc, utf8Encode_crlf] at hEq
    have h48 : a.toNat = 48 := by
      have := congrArg List.head? hEq
      simpa [termBytes] using this
    fin_cases hset <;> simp_all

/-- sendsTo distributes over trace concatenation. -/
theorem sendsTo_append (t1 t2 : List Event) (ep : Endpoint) :
    sendsTo (t1 ++ t2) ep = sendsTo t1 ep ++ sendsTo t2 ep := by
  simp [sendsTo, List.filterMap_append]

/-- The wire bytes of the frame events of a chunk list are the concatenated
frames. -/
theorem sendsTo_frames_flatten (cs : List Chunk) :
    (sendsTo ((cs.map chunkFrameSends).flatten) Endpoint.response).flatten =
      (cs.map chunkFrameBytes).flatten := by
  induction cs with
  | nil => simp [sendsTo]
  | cons c cs ih =>
    simp only [List.map_cons, List.flatten_cons, sendsTo_append, List.flatten_append, ih]
    simp [sendsTo, chunkFrameSends, chunkFrameBytes, List.append_assoc]

/-- Frame events carry no terminator send, provided no chunk's bytes are the
terminator bytes themselves. -/
theorem term_not_in_frames (cs : List Chunk) (h : ∀ c ∈ cs, c.toBytes ≠ termBytes) :
    Event.send .response termBytes ∉ (cs.map chunkFrameSends).flatten := by
  induction cs with
  | nil => simp
  | cons c cs ih =>
    simp only [List.map_cons, List.flatten_cons, List.mem_append]
    push_neg
    refine ⟨?_, ih fun x hx => h x (List.mem_cons_of_mem _ hx)⟩
    intro hmem
    simp only [chunkFrameSends, List.mem_cons, List.not_mem_nil, or_false,
      Event.send.injEq, true_and] at hmem
    rcases hmem with h1 | h1 | h1
    · exact sizeLine_ne_termBytes c.toBytes.length h1.symm
    · exact h c (List.mem_cons_self _ _) h1.symm
    · exact absurd h1 (by decide)

/-- countOpens distributes over trace concatenation. -/
theorem countOpens_append (t1 t2 : List Event) (ep : Endpoint) :
    countOpens (t1 ++ t2) ep = countOpens t1 ep + countOpens t2 ep := by
  simp [countOpens, List.filter_append]

/-- countCloses distributes over trace concatenation. -/
theorem countCloses_append (t1 t2 : List Event) (ep : Endpoint) :
    countCloses (t1 ++ t2) ep = countCloses t1 ep + countCloses t2 ep := by
  simp [countCloses, List.filter_append]

/-- Chunk-frame events open no connection. -/
theorem frames_countOpens (cs : List Chunk) (ep : Endpoint) :
    countOpens ((cs.map chunkFrameSends).flatten) ep = 0 := by
  induction cs with
  | nil => rfl
  | cons c cs ih =>
    simp only [List.map_cons, List.flatten_cons, countOpens_append, ih]
    simp [countOpens, chunkFrameSends, isOpen]

/-- Chunk-frame events close no connection. -/
theorem frames_countCloses (cs : List Chunk) (ep : Endpoint) :
    countCloses ((cs.map chunkFrameSends).flatten) ep = 0 := by
  induction cs with
  | nil => rfl
  | cons c cs ih =>
    simp only [List.map_cons, List.flatten_cons, countCloses_append, ih]
    simp [countCloses, chunkFrameSends, isClose]

/-- The frame events of N chunks are exactly 3 N sends to the response
endpoint. -/
theorem sendsTo_frames_length (cs : List Chunk) :
    (sendsTo ((cs.map chunkFrameSends).flatten) Endpoint.response).length = 3 * cs.length := by
  induction cs with
  | nil => rfl
  | cons c cs ih =>
    simp only [List.map_cons, List.flatten_cons, sendsTo_append, List.length_append, ih,
      List.length_cons]
    simp [sendsTo, chunkFrameSends]
    omega

/-- The byte length of the size line: one byte per hexadecimal digit plus the
CR LF. -/
theorem sizeLine_length (n : Nat) :
    (utf8Encode (hexStr n ++ "\r\n")).length = (hexChars n).length + 2 := by
  rw [utf8Encode_append, utf8Encode_crlf]
  unfold hexStr
  rw [utf8Encode_ascii (hexChars n) fun c hc => hexDigitSet_ascii c (hexChars_mem n c hc)]
  simp

/-- The frame of a non-empty chunk is at least six bytes, hence never the
five-byte terminator frame. -/
theorem chunkFrameBytes_ne_termBytes (c : Chunk) (h : c.toBytes ≠ []) :
    chunkFrameBytes c ≠ termBytes := by
  intro hEq
  have hl := congrArg List.length hEq
  simp only [chunkFrameBytes, List.length_append, sizeLine_length, termBytes,
    List.length_cons, List.length_nil] at hl
  have h1 : 1 ≤ (hexChars c.toBytes.length).length :=
    List.length_pos.mpr (hexChars_ne_nil _)
  have h2 : 1 ≤ c.toBytes.length := List.length_pos.mpr h
  omega

/-- Claim C8 (confirmed): for every execution context and every call time the
remaining-time query returns max(0, deadline_epoch_ms - now_ms); it is never
negative, equals the exact difference before the deadline, vanishes at or past
it, and is antitone in the call time — it is recomputed from the wall clock
passed at each call, not stored at construction. -/
theorem C8_remaining_time (ctx : LambdaContext) (now : Int) :
    ctx.get_remaining_time_in_millis now = max 0 (ctx.deadline_ms - now) ∧
    0 ≤ ctx.get_remaining_time_in_millis now ∧
    (now ≤ ctx.deadline_ms → ctx.get_remaining_time_in_millis now = ctx.deadline_ms - now) ∧
    (ctx.deadline_ms ≤ now → ctx.get_remaining_time_in_millis now = 0) ∧
    (∀ later : Int, now ≤ later →
      ctx.get_remaining_time_in_millis later ≤ ctx.get_remaining_time_in_millis now) := by
  unfold LambdaContext.get_remaining_time_in_millis
  refine ⟨rfl, ?_, ?_, ?_, ?_⟩
  · omega
  · intro h; omega
  · intro h; omega
  · intro l h; omega

/-- Claim C8 witness: in the concrete context with deadline 1000, at time 400
there remain 600 ms and at time 2000 there remain 0 ms. -/
theorem C8_remaining_time_witness :
    ctx0.get_remaining_time_in_millis 400 = 600 ∧
    ctx0.get_remaining_time_in_millis 2000 = 0 := by
  constructor
  · have h := (C8_remaining_time ctx0 400).2.2.1 (by decide)
    rw [h]; decide
  · exact (C8_remaining_time ctx0 2000).2.2.2.1 (by decide)

/-- Claim C4 (confirmed): for every chunk the transport makes exactly three
sends whose concatenation is the frame hex-length CR LF raw-bytes CR LF; the
length rendered is the byte length of the exact representation sent — a str
chunk is utf-8 encoded before its length is taken —; the rendering is
uppercase hexadecimal whose value is that length, with no leading zero when
the chunk is non-empty. -/
theorem C4_chunk_frame (c : Chunk) :
    sendsTo (chunkFrameSends c) Endpoint.response =
      [utf8Encode (hexStr c.toBytes.length) ++ [13, 10], c.toBytes, [13, 10]] ∧
    (sendsTo (chunkFrameSends c) Endpoint.response).flatten =
      utf8Encode (hexStr c.toBytes.length) ++ [13, 10] ++ c.toBytes ++ [13, 10] ∧
    (∀ s, Chunk.toBytes (Chunk.str s) = utf8Encode s) ∧
    hexValue (hexChars c.toBytes.length) = c.toBytes.length ∧
    (∀ d ∈ hexChars c.toBytes.length, d ∈ hexDigitSet) ∧
    (c.toBytes.length ≠ 0 → (hexChars c.toBytes.length).head? ≠ some '0') := by
  have hs : sendsTo (chunkFrameSends c) Endpoint.response =
      [utf8Encode (hexStr c.toBytes.length) ++ [13, 10], c.toBytes, [13, 10]] := by
    simp [sendsTo, chunkFrameSends, utf8Encode_append, utf8Encode_crlf]
  refine ⟨hs, ?_, fun s => rfl, hexValue_hexChars _, hexChars_mem _,
    fun h => hexChars_head_ne_zero _ (Nat.pos_of_ne_zero h)⟩
  rw [hs]
  simp [List.append_assoc]

/-- Claim C4 witness: the two-byte chunk "AB" is framed as the three sends
"2" CR LF, then "AB", then CR LF. -/
theorem C4_chunk_frame_witness :
    (hexChars (Chunk.toBytes (Chunk.str "AB")).length).head? ≠ some '0' ∧
    sendsTo (chunkFrameSends (Chunk.str "AB")) Endpoint.response =
      [[50, 13, 10], [65, 66], [13, 10]] := by
  refine ⟨(C4_chunk_frame (Chunk.str "AB")).2.2.2.2.2 (by decide), ?_⟩
  rw [(C4_chunk_frame (Chunk.str "AB")).1]
  decide

/-- Claim C9 (confirmed): on the event with sentence "Hello this is a test"
the handler yields exactly five chunks and does not fail; the i-th chunk is
the utf-8 bytes of the JSON object carrying the i-th word, its zero-based
index and the total 5, with a newline appended before encoding. -/
theorem C9_handler_concrete :
    lambda_handler event9 =
      { chunks := [
          Chunk.bytes (utf8Encode "\x7b\"word\": \"Hello\", \"index\": 0, \"total\": 5\x7d\n"),
          Chunk.bytes (utf8Encode "\x7b\"word\": \"this\", \"index\": 1, \"total\": 5\x7d\n"),
          Chunk.bytes (utf8Encode "\x7b\"word\": \"is\", \"index\": 2, \"total\": 5\x7d\n"),
          Chunk.bytes (utf8Encode "\x7b\"word\": \"a\", \"index\": 3, \"total\": 5\x7d\n"),
          Chunk.bytes (utf8Encode "\x7b\"word\": \"test\", \"index\": 4, \"total\": 5\x7d\n")],
        fails := false } ∧
    (lambda_handler event9).chunks.length = 5 := by
  constructor
  · rfl
  · rfl

/-- The trace and outcome of stream_response when the generator raises. -/
theorem stream_response_fails (gen : Generator) (ack : AckBehavior) (hf : gen.fails = true) :
    stream_response gen ack =
      ([Event.connOpen .response, Event.sendHeaders .response streamHeaders] ++
        (gen.chunks.map chunkFrameSends).flatten, true) := by
  simp [stream_response, hf]

/-- The trace and outcome of stream_response on a completed generator with an
acknowledgment status. -/
theorem stream_response_ok (gen : Generator) (s : Nat) (hf : gen.fails = false) :
    stream_response gen (.status s) =
      ([Event.connOpen .response, Event.sendHeaders .response streamHeaders] ++
        (gen.chunks.map chunkFrameSends).flatten ++
        [Event.send .response termBytes, Event.getResponse .response s,
         Event.connClose .response], false) := by
  simp [stream_response, hf]

/-- The trace and outcome of stream_response on a completed generator whose
acknowledgment read raises. -/
theorem stream_response_ackRaises (gen : Generator) (hf : gen.fails = false) :
    stream_response gen .raises =
      ([Event.connOpen .response, Event.sendHeaders .response streamHeaders] ++
        (gen.chunks.map chunkFrameSends).flatten ++ [Event.send .response termBytes],
       true) := by
  simp [stream_response, hf]

/-- Claim C10 (confirmed): a 200 poll response with an empty body never reaches
json.loads — the result is identical under any two loads functions — and, when
the deadline header parses so the context can be built, the poller returns the
invocation whose event is the empty dict; with a truthy request id the
iteration then hands exactly that empty mapping to the handler. -/
theorem C10_empty_body (env : PyEnv) (loads loads2 : String → Option Json)
    (r : PollResponse) (h200 : r.status = 200) (hbody : r.body = "")
    (hdl : (pyInt r.deadlineMs).isSome = true) :
    get_next_invocation env loads r = get_next_invocation env loads2 r ∧
    (∃ inv, (get_next_invocation env loads r).2 = some inv ∧ inv.event = Json.obj []) ∧
    (∀ handler ack errBody errT, pyTruthyStr r.requestId = true →
      mainIteration env loads r handler ack errBody errT =
        ((get_next_invocation env loads r).1 ++
          (invokeOnce (handler (Json.obj [])) ack errBody errT).1,
         (invokeOnce (handler (Json.obj [])) ack errBody errT).2)) := by
  obtain ⟨d, hd⟩ := Option.isSome_iff_exists.mp hdl
  have hctx : LambdaContext.init env r.requestId r.deadlineMs r.arn r.traceId =
      some {
        aws_request_id := r.requestId
        deadline_ms := d
        invoked_function_arn := r.arn
        trace_id := r.traceId
        function_name := envGet env "AWS_LAMBDA_FUNCTION_NAME" "unknown"
        function_version := envGet env "AWS_LAMBDA_FUNCTION_VERSION" "$LATEST"
        memory_limit_in_mb := envGet env "AWS_LAMBDA_FUNCTION_MEMORY_SIZE" "128"
        log_group_name := envGet env "AWS_LAMBDA_LOG_GROUP_NAME" ""
        log_stream_name := envGet env "AWS_LAMBDA_LOG_STREAM_NAME" "" } := by
    unfold LambdaContext.init
    rw [hd]
  have hget : ∀ ld : String → Option Json,
      get_next_invocation env ld r =
        ([Event.connOpen .next, Event.sendHeaders .next [], Event.getResponse .next r.status,
          Event.connClose .next],
         some ⟨r.requestId, Json.obj [],
           { aws_request_id := r.requestId
             deadline_ms := d
             invoked_function_arn := r.arn
             trace_id := r.traceId
             function_name := envGet env "AWS_LAMBDA_FUNCTION_NAME" "unknown"
             function_version := envGet env "AWS_LAMBDA_FUNCTION_VERSION" "$LATEST"
             memory_limit_in_mb := envGet env "AWS_LAMBDA_FUNCTION_MEMORY_SIZE" "128"
             log_group_name := envGet env "AWS_LAMBDA_LOG_GROUP_NAME" ""
             log_stream_name := envGet env "AWS_LAMBDA_LOG_STREAM_NAME" "" }⟩) := by
    intro ld
    unfold get_next_invocation
    rw [hbody, hctx]
    simp [h200]
  refine ⟨(hget loads).trans (hget loads2).symm, ⟨_, by rw [hget loads], rfl⟩, ?_⟩
  intro handler ack errBody errT htr
  unfold mainIteration
  rw [hget loads]
  simp [htr]

/-- Claim C10 witness: the concrete empty-body 200 response yields the empty
dict as the event. -/
theorem C10_empty_body_witness :
    ∃ inv, (get_next_invocation env0 loads0 pollEmptyBody).2 = some inv ∧
      inv.event = Json.obj [] :=
  (C10_empty_body env0 loads0 (fun _ => none) pollEmptyBody rfl rfl (by decide)).2.1

/-- Claim C2 counterexample: a poll response with status 500 is an exit path of
the polling operation on which the connection is never closed — conn.close is
reached only on the success path — refuting "closed exactly once on every exit
path, including the path where the poll response has a non-200 status". -/
theorem C2_counterexample :
    (get_next_invocation env0 loads0 poll500).2 = none ∧
    countCloses (get_next_invocation env0 loads0 poll500).1 Endpoint.next = 0 := by
  exact ⟨rfl, rfl⟩

/-- Claim C2 (amended): each connection is closed exactly once on the normal
completion path of the operation that opened it and zero times on its failure
paths: the poll connection is closed iff an invocation is returned (not on a
non-200 status nor on a parse or context failure), the stream connection is
closed iff stream_response does not raise (not on a mid-stream exception), and
the error connection is closed iff the report's own transport completed. -/
theorem C2_close_discipline (env : PyEnv) (loads : String → Option Json)
    (r : PollResponse) (gen : Generator) (ack : AckBehavior) (body : Bytes)
    (errT : Option Nat) :
    countCloses (get_next_invocation env loads r).1 Endpoint.next =
      (if (get_next_invocation env loads r).2.isSome then 1 else 0) ∧
    countCloses (stream_response gen ack).1 Endpoint.response =
      (if (stream_response gen ack).2 then 0 else 1) ∧
    countCloses (send_error body errT) Endpoint.error =
      (if errT.isSome then 1 else 0) := by
  refine ⟨?_, ?_, ?_⟩
  · unfold get_next_invocation
    split
    · simp [countCloses, isClose]
    · split
      · simp [countCloses, isClose]
      · split
        · simp [countCloses, isClose]
        · simp [countCloses, isClose, List.filter_append]
  · cases hf : gen.fails with
    | true =>
      rw [stream_response_fails gen ack hf, countCloses_append, frames_countCloses]
      rfl
    | false =>
      cases ack with
      | raises =>
        rw [stream_response_ackRaises gen hf, countCloses_append, countCloses_append,
          frames_countCloses]
        rfl
      | status s =>
        rw [stream_response_ok gen s hf, countCloses_append, countCloses_append,
          frames_countCloses]
        rfl
  · cases errT with
    | none => simp [send_error, countCloses, isClose]
    | some s => simp [send_error, countCloses, isClose]

/-- invokeOnce when the generator raises: the stream trace followed by the
error report, and the loop continues. -/
theorem invokeOnce_fails (gen : Generator) (ack : AckBehavior) (errBody : Bytes)
    (errT : Option Nat) (hfail : gen.fails = true) :
    invokeOnce gen ack errBody errT =
      (([Event.connOpen .response, Event.sendHeaders .response streamHeaders] ++
          (gen.chunks.map chunkFrameSends).flatten) ++ send_error errBody errT,
       LoopOutcome.cont) := by
  simp [invokeOnce, stream_response_fails gen ack hfail]

/-- invokeOnce on a completed generator with an acknowledgment status: the
stream trace alone, whatever the status, and the loop continues. -/
theorem invokeOnce_ok (gen : Generator) (s : Nat) (errBody : Bytes) (errT : Option Nat)
    (hok : gen.fails = false) :
    invokeOnce gen (.status s) errBody errT =
      ([Event.connOpen .response, Event.sendHeaders .response streamHeaders] ++
        (gen.chunks.map chunkFrameSends).flatten ++
        [Event.send .response termBytes, Event.getResponse .response s,
         Event.connClose .response],
       LoopOutcome.cont) := by
  simp [invokeOnce, stream_response_ok gen s hok]

/-- invokeOnce on a completed generator whose acknowledgment read raises: the
terminator was already sent, and the error report follows. -/
theorem invokeOnce_ackRaises (gen : Generator) (errBody : Bytes) (errT : Option Nat)
    (hok : gen.fails = false) :
    invokeOnce gen .raises errBody errT =
      (([Event.connOpen .response, Event.sendHeaders .response streamHeaders] ++
          (gen.chunks.map chunkFrameSends).flatten ++ [Event.send .response termBytes]) ++
        send_error errBody errT,
       LoopOutcome.cont) := by
  simp [invokeOnce, stream_response_ackRaises gen hok]

/-- A failed iteration makes exactly one error-endpoint connection attempt. -/
theorem invokeOnce_fails_errorOpens (gen : Generator) (ack : AckBehavior) (errBody : Bytes)
    (errT : Option Nat) (hfail : gen.fails = true) :
    countOpens (invokeOnce gen ack errBody errT).1 Endpoint.error = 1 := by
  simp only [invokeOnce_fails gen ack errBody errT hfail, countOpens_append, frames_countOpens]
  cases errT <;> rfl

/-- A successful iteration makes no error-endpoint connection. -/
theorem invokeOnce_ok_errorOpens (gen : Generator) (s : Nat) (errBody : Bytes)
    (errT : Option Nat) (hok : gen.fails = false) :
    countOpens (invokeOnce gen (.status s) errBody errT).1 Endpoint.error = 0 := by
  simp only [invokeOnce_ok gen s errBody errT hok, countOpens_append, frames_countOpens]
  rfl

/-- An iteration whose acknowledgment read raises makes exactly one
error-endpoint connection attempt. -/
theorem invokeOnce_ackRaises_errorOpens (gen : Generator) (errBody : Bytes)
    (errT : Option Nat) (hok : gen.fails = false) :
    countOpens (invokeOnce gen .raises errBody errT).1 Endpoint.error = 1 := by
  simp only [invokeOnce_ackRaises gen errBody errT hok, countOpens_append, frames_countOpens]
  cases errT <;> rfl

/-- In the trace of a failed stream's iteration the terminator send never
occurs, provided no chunk's bytes equal the terminator bytes. -/
theorem term_not_in_fail_trace (gen : Generator) (ack : AckBehavior) (errBody : Bytes)
    (errT : Option Nat) (hfail : gen.fails = true)
    (hterm : ∀ c ∈ gen.chunks, c.toBytes ≠ termBytes) :
    Event.send .response termBytes ∉ (invokeOnce gen ack errBody errT).1 := by
  have h1 : (invokeOnce gen ack errBody errT).1 =
      ([Event.connOpen .response, Event.sendHeaders .response streamHeaders] ++
        (gen.chunks.map chunkFrameSends).flatten) ++ send_error errBody errT := by
    rw [invokeOnce_fails gen ack errBody errT hfail]
  rw [h1]
  intro hmem
  rcases List.mem_append.mp hmem with hmem | hmem
  · rcases List.mem_append.mp hmem with hmem | hmem
    · simp at hmem
    · exact term_not_in_frames gen.chunks hterm hmem
  · cases errT <;> simp [send_error] at hmem

/-- The terminator send occurs in the trace of a successful stream. -/
theorem term_in_ok_trace (gen : Generator) (s : Nat) (errBody : Bytes) (errT : Option Nat)
    (hok : gen.fails = false) :
    Event.send .response termBytes ∈ (invokeOnce gen (.status s) errBody errT).1 := by
  have h1 : (invokeOnce gen (.status s) errBody errT).1 =
      [Event.connOpen .response, Event.sendHeaders .response streamHeaders] ++
        (gen.chunks.map chunkFrameSends).flatten ++
        [Event.send .response termBytes, Event.getResponse .response s,
         Event.connClose .response] := by
    rw [invokeOnce_ok gen s errBody errT hok]
  rw [h1]
  simp

/-- The terminator send occurs in the trace of a completed stream whose
acknowledgment read raises. -/
theorem term_in_ackRaises_trace (gen : Generator) (errBody : Bytes) (errT : Option Nat)
    (hok : gen.fails = false) :
    Event.send .response termBytes ∈ (invokeOnce gen .raises errBody errT).1 := by
  have h1 : (invokeOnce gen .raises errBody errT).1 =
      ([Event.connOpen .response, Event.sendHeaders .response streamHeaders] ++
        (gen.chunks.map chunkFrameSends).flatten ++ [Event.send .response termBytes]) ++
        send_error errBody errT := by
    rw [invokeOnce_ackRaises gen errBody errT hok]
  rw [h1]
  simp

/-- Claim C3 (confirmed): when the handler raises after yielding N ≥ 1 chunks,
the stream trace is exactly the connection open, the streaming headers and the
N chunk frames — 3 N body sends whose bytes are the concatenated frames, with
no terminator send (no chunk's bytes being the terminator bytes) and no
close —; the exception propagates, the loop answers it with exactly one
best-effort error-endpoint call on a separate connection, and continues. -/
theorem C3_midstream_failure (gen : Generator) (ack : AckBehavior) (errBody : Bytes)
    (errT : Option Nat) (hfail : gen.fails = true) (_hne : gen.chunks ≠ []) :
    (stream_response gen ack).1 =
      [Event.connOpen .response, Event.sendHeaders .response streamHeaders] ++
        (gen.chunks.map chunkFrameSends).flatten ∧
    (stream_response gen ack).2 = true ∧
    (sendsTo (stream_response gen ack).1 Endpoint.response).flatten =
      (gen.chunks.map chunkFrameBytes).flatten ∧
    (sendsTo (stream_response gen ack).1 Endpoint.response).length = 3 * gen.chunks.length ∧
    ((∀ c ∈ gen.chunks, c.toBytes ≠ termBytes) →
      Event.send .response termBytes ∉ (invokeOnce gen ack errBody errT).1) ∧
    invokeOnce gen ack errBody errT =
      (([Event.connOpen .response, Event.sendHeaders .response streamHeaders] ++
          (gen.chunks.map chunkFrameSends).flatten) ++ send_error errBody errT,
       LoopOutcome.cont) ∧
    countOpens (invokeOnce gen ack errBody errT).1 Endpoint.error = 1 := by
  have hs := stream_response_fails gen ack hfail
  have h1 : (stream_response gen ack).1 =
      [Event.connOpen .response, Event.sendHeaders .response streamHeaders] ++
        (gen.chunks.map chunkFrameSends).flatten := by rw [hs]
  have h2 : (stream_response gen ack).2 = true := by rw [hs]
  refine ⟨h1, h2, ?_, ?_,
    fun hterm => term_not_in_fail_trace gen ack errBody errT hfail hterm,
    invokeOnce_fails gen ack errBody errT hfail,
    invokeOnce_fails_errorOpens gen ack errBody errT hfail⟩
  · rw [h1, sendsTo_append]
    rw [show sendsTo [Event.connOpen .response, Event.sendHeaders .response streamHeaders]
        Endpoint.response = [] from rfl]
    rw [List.nil_append, sendsTo_frames_flatten]
  · rw [h1, sendsTo_append]
    rw [show sendsTo [Event.connOpen .response, Event.sendHeaders .response streamHeaders]
        Endpoint.response = [] from rfl]
    rw [List.nil_append, sendsTo_frames_length]

/-- Claim C3 witness: the two-chunk failing generator makes six body sends, no
terminator send, and exactly one error call. -/
theorem C3_midstream_failure_witness :
    (sendsTo (stream_response genFail2 (.status 202)).1 Endpoint.response).length = 6 ∧
    countOpens (invokeOnce genFail2 (.status 202) [] (some 202)).1 Endpoint.error = 1 ∧
    Event.send .response termBytes ∉ (invokeOnce genFail2 (.status 202) [] (some 202)).1 := by
  have h := C3_midstream_failure genFail2 (.status 202) [] (some 202) rfl (by decide)
  exact ⟨h.2.2.2.1.trans (by decide), h.2.2.2.2.2.2, h.2.2.2.2.1 (by decide)⟩

/-- Claim C7 (confirmed): when the chunk sequence is exhausted without error
the transport writes the terminator send exactly once, after the last chunk
frame, then reads the acknowledgment and only then closes; with every chunk
non-empty no chunk frame is a zero-length (terminator) frame, so the
terminator frame never occurs mid-sequence; an acknowledgment status other
than 202 does not raise, triggers no error-endpoint call, and the frames on
the wire are the same whatever the status. -/
theorem C7_terminator (gen : Generator) (s : Nat) (errBody : Bytes) (errT : Option Nat)
    (hok : gen.fails = false) (hne : ∀ c ∈ gen.chunks, c.toBytes ≠ []) :
    (stream_response gen (.status s)).1 =
      [Event.connOpen .response, Event.sendHeaders .response streamHeaders] ++
        (gen.chunks.map chunkFrameSends).flatten ++
        [Event.send .response termBytes, Event.getResponse .response s,
         Event.connClose .response] ∧
    (stream_response gen (.status s)).2 = false ∧
    (∀ c ∈ gen.chunks, chunkFrameBytes c ≠ termBytes) ∧
    termBytes ∉ gen.chunks.map chunkFrameBytes ∧
    (sendsTo (stream_response gen (.status s)).1 Endpoint.response).flatten =
      (gen.chunks.map chunkFrameBytes).flatten ++ termBytes ∧
    invokeOnce gen (.status s) errBody errT =
      ((stream_response gen (.status s)).1, LoopOutcome.cont) ∧
    countOpens (invokeOnce gen (.status s) errBody errT).1 Endpoint.error = 0 := by
  have hs := stream_response_ok gen s hok
  have h1 : (stream_response gen (.status s)).1 =
      [Event.connOpen .response, Event.sendHeaders .response streamHeaders] ++
        (gen.chunks.map chunkFrameSends).flatten ++
        [Event.send .response termBytes, Event.getResponse .response s,
         Event.connClose .response] := by rw [hs]
  have h2 : (stream_response gen (.status s)).2 = false := by rw [hs]
  have hfr : ∀ c ∈ gen.chunks, chunkFrameBytes c ≠ termBytes :=
    fun c hc => chunkFrameBytes_ne_termBytes c (hne c hc)
  refine ⟨h1, h2, hfr, ?_, ?_, ?_, invokeOnce_ok_errorOpens gen s errBody errT hok⟩
  · intro hmem
    obtain ⟨c, hc, hEq⟩ := List.mem_map.mp hmem
    exact hfr c hc hEq
  · rw [h1, sendsTo_append, sendsTo_append]
    rw [show sendsTo [Event.connOpen .response, Event.sendHeaders .response streamHeaders]
        Endpoint.response = [] from rfl]
    rw [show sendsTo [Event.send .response termBytes, Event.getResponse .response s,
        Event.connClose .response] Endpoint.response = [termBytes] from rfl]
    rw [List.nil_append, List.flatten_append, sendsTo_frames_flatten]
    simp [termBytes]
  · rw [invokeOnce_ok gen s errBody errT hok, h1]

/-- Claim C7 witness: the completed one-chunk stream with the unexpected
acknowledgment status 500 still carries the frame of the chunk followed by the
single terminator frame, and makes no error call. -/
theorem C7_terminator_witness :
    (sendsTo (stream_response genOk1 (.status 500)).1 Endpoint.response).flatten =
      (genOk1.chunks.map chunkFrameBytes).flatten ++ termBytes ∧
    countOpens (invokeOnce genOk1 (.status 500) [] (some 202)).1 Endpoint.error = 0 := by
  have h := C7_terminator genOk1 500 [] (some 202) rfl (by decide)
  exact ⟨h.2.2.2.2.1, h.2.2.2.2.2.2⟩

/-- Claim C5 counterexample: when the one-chunk generator completes, the
terminator frame is sent, and then conn.getresponse() raises while reading the
acknowledgment, the re-raised exception makes the loop also post an error
report: the same invocation both sends the terminator frame on the response
connection and calls the error endpoint, refuting "never both". -/
theorem C5_counterexample :
    Event.send .response termBytes ∈ (invokeOnce genOk1 .raises [] (some 202)).1 ∧
    countOpens (invokeOnce genOk1 .raises [] (some 202)).1 Endpoint.error = 1 := by
  constructor <;> decide

/-- Claim C5 (amended): provided no chunk's bytes coincide with the terminator
bytes, the invocation reaches exactly one of the two terminal outcomes — the
terminator send occurs iff no error report goes out — in every execution
except the one the counterexample exhibits: both occur exactly when the
generator completed and the acknowledgment read raised after the terminator
was already sent. -/
theorem C5_terminal_outcomes (gen : Generator) (ack : AckBehavior) (errBody : Bytes)
    (errT : Option Nat) (hsafe : ∀ c ∈ gen.chunks, c.toBytes ≠ termBytes) :
    ((Event.send .response termBytes ∈ (invokeOnce gen ack errBody errT).1 ∧
        1 ≤ countOpens (invokeOnce gen ack errBody errT).1 Endpoint.error) ↔
      (gen.fails = false ∧ ack = AckBehavior.raises)) ∧
    (¬(gen.fails = false ∧ ack = AckBehavior.raises) →
      ((Event.send .response termBytes ∈ (invokeOnce gen ack errBody errT).1) ↔
        countOpens (invokeOnce gen ack errBody errT).1 Endpoint.error = 0)) := by
  cases hf : gen.fails with
  | true =>
    have hni := term_not_in_fail_trace gen ack errBody errT hf hsafe
    have hc := invokeOnce_fails_errorOpens gen ack errBody errT hf
    constructor
    · constructor
      · rintro ⟨hmem, -⟩
        exact absurd hmem hni
      · rintro ⟨hff, -⟩
        exact absurd hff (by simp)
    · intro _
      constructor
      · intro hmem
        exact absurd hmem hni
      · intro hc0
        rw [hc] at hc0
        exact absurd hc0 (by omega)
  | false =>
    cases ack with
    | status s =>
      have hmem := term_in_ok_trace gen s errBody errT hf
      have hc := invokeOnce_ok_errorOpens gen s errBody errT hf
      constructor
      · constructor
        · rintro ⟨-, hge⟩
          rw [hc] at hge
          exact absurd hge (by omega)
        · rintro ⟨-, hra⟩
          exact absurd hra (by simp)
      · intro _
        exact ⟨fun _ => hc, fun _ => hmem⟩
    | raises =>
      have hmem := term_in_ackRaises_trace gen errBody errT hf
      have hc := invokeOnce_ackRaises_errorOpens gen errBody errT hf
      constructor
      · exact ⟨fun _ => ⟨rfl, rfl⟩, fun _ => ⟨hmem, hc.symm.le⟩⟩
      · intro hnot
        exact absurd ⟨rfl, rfl⟩ hnot

/-- Claim C5 witness: at the concrete completed stream with acknowledgment
status 202 the exclusive-outcome equivalence holds: the terminator was sent
and no error call was made. -/
theorem C5_terminal_outcomes_witness :
    (Event.send .response termBytes ∈ (invokeOnce genOk1 (.status 202) [] (some 202)).1) ↔
      countOpens (invokeOnce genOk1 (.status 202) [] (some 202)).1 Endpoint.error = 0 :=
  (C5_terminal_outcomes genOk1 (.status 202) [] (some 202) (by decide)).2 (by simp)

/-- Claim C1 counterexample: the repository handler is a generator function, so
with the JSON-array event parsed from body "[]" it raises (event.get on a
non-dict) before its first chunk, but only once iterated inside
stream_response: the iteration makes the one error-endpoint call, yet it also
opens one connection to the response endpoint and sends the streaming headers
on it, refuting "no connection is opened to the response endpoint and no bytes
are sent to it". -/
theorem C1_counterexample :
    countOpens (mainIteration env0 loads0 pollArrayBody lambda_handler
      (.status 202) [] (some 202)).1 Endpoint.response = 1 ∧
    Event.sendHeaders .response streamHeaders ∈
      (mainIteration env0 loads0 pollArrayBody lambda_handler (.status 202) [] (some 202)).1 ∧
    countOpens (mainIteration env0 loads0 pollArrayBody lambda_handler
      (.status 202) [] (some 202)).1 Endpoint.error = 1 := by
  refine ⟨?_, ?_, ?_⟩ <;> decide

/-- Claim C1 (amended): a handler that fails before yielding any chunk results
in exactly one error-endpoint call, no body bytes (no chunk frame and no
terminator) on the response connection, and the loop continues; but — the
handler being a generator that is first executed inside the streaming
transport — one response connection is opened and the streaming headers are
sent on it before the failure is detected, rather than the response endpoint
not being contacted at all. -/
theorem C1_prestream (gen : Generator) (ack : AckBehavior) (errBody : Bytes)
    (errT : Option Nat) (hfail : gen.fails = true) (hnil : gen.chunks = []) :
    (invokeOnce gen ack errBody errT).1 =
      [Event.connOpen .response, Event.sendHeaders .response streamHeaders] ++
        send_error errBody errT ∧
    countOpens (invokeOnce gen ack errBody errT).1 Endpoint.error = 1 ∧
    countOpens (invokeOnce gen ack errBody errT).1 Endpoint.response = 1 ∧
    sendsTo (invokeOnce gen ack errBody errT).1 Endpoint.response = [] ∧
    (invokeOnce gen ack errBody errT).2 = LoopOutcome.cont := by
  have h1 : (invokeOnce gen ack errBody errT).1 =
      ([Event.connOpen .response, Event.sendHeaders .response streamHeaders] ++
        (gen.chunks.map chunkFrameSends).flatten) ++ send_error errBody errT := by
    rw [invokeOnce_fails gen ack errBody errT hfail]
  rw [hnil] at h1
  simp only [List.map_nil, List.flatten_nil, List.append_nil] at h1
  refine ⟨by rw [h1], invokeOnce_fails_errorOpens gen ack errBody errT hfail, ?_, ?_, ?_⟩
  · rw [h1, countOpens_append]
    cases errT <;> rfl
  · rw [h1, sendsTo_append]
    cases errT <;> rfl
  · rw [invokeOnce_fails gen ack errBody errT hfail]

/-- Claim C1 witness: the concrete pre-first-chunk failure makes one error call
and one response-endpoint connection, with no body bytes sent on it. -/
theorem C1_prestream_witness :
    countOpens (invokeOnce genFail0 (.status 202) [] (some 202)).1 Endpoint.error = 1 ∧
    countOpens (invokeOnce genFail0 (.status 202) [] (some 202)).1 Endpoint.response = 1 ∧
    sendsTo (invokeOnce genFail0 (.status 202) [] (some 202)).1 Endpoint.response = [] := by
  have h := C1_prestream genFail0 (.status 202) [] (some 202) rfl rfl
  exact ⟨h.2.1, h.2.2.1, h.2.2.2.1⟩

/-- Claim C6 counterexample: with the deadline header absent on an otherwise
well-formed 200 poll response, int(None) raises inside the try block:
LambdaContext.init fails, get_next_invocation returns no invocation, and the
iteration never opens a response connection — the context is not built and the
invocation does not proceed to the handler, refuting "treated as no deadline
enforced rather than being fatal". -/
theorem C6_counterexample :
    LambdaContext.init env0 (some "req-1") none (some "arn:demo") (some "trace-1") = none ∧
    (get_next_invocation env0 loads0 pollNoDeadline).2 = none ∧
    countOpens (mainIteration env0 loads0 pollNoDeadline lambda_handler
      (.status 202) [] (some 202)).1 Endpoint.response = 0 := by
  refine ⟨rfl, rfl, ?_⟩
  decide

/-- Claim C6 (amended): execution-context construction indeed has no failure
mode beyond a missing or malformed deadline — it yields a context exactly when
int() accepts the deadline header — but such a failure is fatal to the
invocation rather than tolerated: on any poll response whose deadline header
does not parse, no invocation is returned, the handler is never reached (no
response connection is opened), and the loop merely continues to the next
poll. -/
theorem C6_deadline (env : PyEnv) (rid arn tid dl : Option String)
    (loads : String → Option Json) (r : PollResponse) (handler : Json → Generator)
    (ack : AckBehavior) (errBody : Bytes) (errT : Option Nat)
    (hdl : pyInt r.deadlineMs = none) :
    ((LambdaContext.init env rid dl arn tid).isSome ↔ (pyInt dl).isSome) ∧
    (get_next_invocation env loads r).2 = none ∧
    countOpens (mainIteration env loads r handler ack errBody errT).1 Endpoint.response = 0 ∧
    (mainIteration env loads r handler ack errBody errT).2 = LoopOutcome.cont := by
  have hinit : ∀ (e : PyEnv) (a b c : Option String),
      pyInt b = none → LambdaContext.init e a b c tid = none := by
    intro e a b c hb
    unfold LambdaContext.init
    rw [hb]
  have hg : get_next_invocation env loads r =
      ([Event.connOpen .next, Event.sendHeaders .next [], Event.getResponse .next r.status],
       none) := by
    unfold get_next_invocation
    split
    · rfl
    · cases hb : (if r.body = "" then some (Json.obj []) else loads r.body) with
      | none => rfl
      | some ev =>
        unfold LambdaContext.init
        rw [hdl]
  refine ⟨?_, by rw [hg], ?_, ?_⟩
  · unfold LambdaContext.init
    cases h : pyInt dl <;> simp [h]
  · unfold mainIteration
    rw [hg]
    rfl
  · unfold mainIteration
    rw [hg]

/-- Claim C6 witness: the concrete no-deadline 200 response yields no
invocation and the handler is never reached. -/
theorem C6_deadline_witness :
    (get_next_invocation env0 loads0 pollNoDeadline).2 = none ∧
    countOpens (mainIteration env0 loads0 pollNoDeadline lambda_handler
      (.status 202) [] (some 202)).1 Endpoint.response = 0 := by
  have h := C6_deadline env0 (some "req-1") (some "arn:demo") (some "trace-1") none loads0
    pollNoDeadline lambda_handler (.status 202) [] (some 202) (by decide)
  exact ⟨h.2.1, h.2.2.1⟩

end LambdaRuntime
